import Mathlib

set_option maxHeartbeats 1000000

/-!
# A verification development for the goagain zero-downtime restart library

This file gives a shallow embedding of the two generations of the goagain
library (the classic Strategy-based generation and the bounded-wait
generation) and proves properties of the embedded operations.

Modelling conventions:
* The process environment is an association list of string pairs; `getenv`
  returns the empty string for a missing key, as `os.Getenv` does.
* `fmt.Sscan` of a single integer operand is modelled by `sscanInt` /
  `sscanNat`: an empty (or all-blank) input yields end-of-input (`io.EOF`),
  an input whose first token does not start a number yields a parse error,
  and otherwise the maximal leading digit run is the value.
* The OS descriptor table is a list mapping descriptor numbers to sockets;
  obtaining a file from a listener allocates the next descriptor pointing at
  the listener's socket, and `net.FileListener` reconstructs a listener from
  the socket found at a descriptor.
* OS calls that can fail for reasons outside this library (`exec.LookPath`,
  `os.Getwd`, `os.StartProcess`) are passed in as `Except` oracles.
* The signal-coordinator loops consume an explicit list of delivered signals
  (the buffered channel), and the bounded wait's timer race is an explicit
  boolean event (whether the quit signal arrived before the timeout).
-/

/-! ## Signal numbers (Linux) -/

def SIGHUP : Nat := 1

def SIGINT : Nat := 2

def SIGQUIT : Nat := 3

def SIGKILL : Nat := 9

def SIGUSR1 : Nat := 10

def SIGUSR2 : Nat := 12

def SIGTERM : Nat := 15

/-! ## fmt.Sscan on a single integer operand -/

/-- Result of scanning one operand: a value, end-of-input, or a parse error. -/
inductive Scan (α : Type) where
  | ok (a : α)
  | eof
  | parseErr
deriving DecidableEq, Repr

/-- Whitespace as skipped by the fmt scanner. -/
def isSpaceChar (c : Char) : Bool :=
  c == ' ' || c == '\t' || c == '\n' || c == '\r'

/-- Numeric value of a decimal digit character. -/
def digitVal (c : Char) : Nat := c.toNat - 48

/-- Value of a list of decimal digit characters, most significant first. -/
def parseDigits (ds : List Char) : Nat :=
  ds.foldl (fun a c => 10 * a + digitVal c) 0

/-- `fmt.Sscan` into a `uintptr`/unsigned operand, on a character list. -/
def sscanNatL (cs : List Char) : Scan Nat :=
  match cs.dropWhile isSpaceChar with
  | [] => .eof
  | c :: rest =>
    if c.isDigit then .ok (parseDigits ((c :: rest).takeWhile Char.isDigit))
    else .parseErr

/-- `fmt.Sscan` into an `int` operand, on a character list. -/
def sscanIntL (cs : List Char) : Scan Int :=
  match cs.dropWhile isSpaceChar with
  | [] => .eof
  | c :: rest =>
    if c == '-' then
      match rest with
      | [] => .parseErr
      | d :: _ =>
        if d.isDigit then .ok (-(parseDigits (rest.takeWhile Char.isDigit) : Int))
        else .parseErr
    else if c == '+' then
      match rest with
      | [] => .parseErr
      | d :: _ =>
        if d.isDigit then .ok ((parseDigits (rest.takeWhile Char.isDigit) : Int))
        else .parseErr
    else if c.isDigit then .ok ((parseDigits ((c :: rest).takeWhile Char.isDigit) : Int))
    else .parseErr

/-- `fmt.Sscan` of one unsigned integer from a string. -/
def sscanNat (s : String) : Scan Nat := sscanNatL s.data

/-- `fmt.Sscan` of one signed integer from a string. -/
def sscanInt (s : String) : Scan Int := sscanIntL s.data

/-! ## fmt.Sprint of a natural number (decimal printing) -/

/-- The decimal digit character for `d < 10`. -/
def digitChar (d : Nat) : Char := Char.ofNat (48 + d)

/-- Decimal digits of `n`, most significant first; `fuel` bounds recursion
structurally so the definition evaluates by `rfl`/`decide`. -/
def natToDecAux : Nat → Nat → List Char
  | 0, n => [digitChar n]
  | fuel + 1, n =>
    if n < 10 then [digitChar n]
    else natToDecAux fuel (n / 10) ++ [digitChar (n % 10)]

/-- Decimal digit characters of `n`, most significant first. -/
def natToDecL (n : Nat) : List Char := natToDecAux n n

/-- `fmt.Sprint` of a non-negative integer. -/
def natToDec (n : Nat) : String := ⟨natToDecL n⟩

/-! ## Lemmas: `sscanNat` inverts `natToDec` -/

theorem digitVal_digitChar (d : Nat) (h : d < 10) : digitVal (digitChar d) = d := by
  interval_cases d <;> decide

theorem isDigit_digitChar (d : Nat) (h : d < 10) : (digitChar d).isDigit = true := by
  interval_cases d <;> decide

theorem isSpaceChar_of_isDigit {c : Char} (h : c.isDigit = true) : isSpaceChar c = false := by
  rcases hc : isSpaceChar c with _ | _
  · rfl
  · exfalso
    unfold isSpaceChar at hc
    simp only [Bool.or_eq_true, beq_iff_eq] at hc
    rcases hc with ((rfl | rfl) | rfl) | rfl <;> exact absurd h (by decide)

theorem natToDecAux_digits (fuel n : Nat) (hfn : n ≤ fuel) :
    ∀ c ∈ natToDecAux fuel n, c.isDigit = true := by
  induction fuel generalizing n with
  | zero =>
    intro c hc
    have hn : n = 0 := Nat.le_zero.mp hfn
    subst hn
    simp only [natToDecAux, List.mem_singleton] at hc
    subst hc
    exact isDigit_digitChar 0 (by omega)
  | succ fuel ih =>
    intro c hc
    by_cases h : n < 10
    · simp only [natToDecAux, if_pos h, List.mem_singleton] at hc
      subst hc
      exact isDigit_digitChar n h
    · simp only [natToDecAux, if_neg h, List.mem_append, List.mem_singleton] at hc
      rcases hc with hc | hc
      · exact ih (n / 10) (by omega) c hc
      · subst hc
        exact isDigit_digitChar (n % 10) (Nat.mod_lt _ (by omega))

theorem natToDecAux_ne_nil (fuel n : Nat) : natToDecAux fuel n ≠ [] := by
  cases fuel with
  | zero => simp [natToDecAux]
  | succ fuel =>
    by_cases h : n < 10 <;> simp [natToDecAux, h]

theorem parseDigits_append_one (xs : List Char) (c : Char) :
    parseDigits (xs ++ [c]) = 10 * parseDigits xs + digitVal c := by
  unfold parseDigits
  rw [List.foldl_append]
  rfl

theorem parseDigits_natToDecAux (fuel n : Nat) (hfn : n ≤ fuel) :
    parseDigits (natToDecAux fuel n) = n := by
  induction fuel generalizing n with
  | zero =>
    have hn : n = 0 := Nat.le_zero.mp hfn
    subst hn
    decide
  | succ fuel ih =>
    by_cases h : n < 10
    · simp only [natToDecAux, if_pos h]
      unfold parseDigits
      simp [digitVal_digitChar n h]
    · simp only [natToDecAux, if_neg h]
      rw [parseDigits_append_one, ih (n / 10) (by omega),
          digitVal_digitChar (n % 10) (Nat.mod_lt _ (by omega))]
      omega

theorem takeWhile_eq_self_of_all {p : Char → Bool} :
    ∀ l : List Char, (∀ c ∈ l, p c = true) → l.takeWhile p = l := by
  intro l
  induction l with
  | nil => intro _; rfl
  | cons a t ih =>
    intro h
    rw [List.takeWhile_cons, h a (List.mem_cons_self a t)]
    simp [ih fun c hc => h c (List.mem_cons_of_mem a hc)]

theorem dropWhile_cons_of_neg {p : Char → Bool} (c : Char) (l : List Char)
    (h : p c = false) : (c :: l).dropWhile p = c :: l := by
  simp [List.dropWhile_cons, h]

theorem sscanNatL_natToDecL (n : Nat) : sscanNatL (natToDecL n) = .ok n := by
  have hdig : ∀ c ∈ natToDecL n, c.isDigit = true :=
    natToDecAux_digits n n (Nat.le_refl n)
  obtain ⟨c, rest, hcr⟩ : ∃ c rest, natToDecL n = c :: rest := by
    cases hl : natToDecL n with
    | nil => exact absurd hl (natToDecAux_ne_nil n n)
    | cons c rest => exact ⟨c, rest, rfl⟩
  have hc : c.isDigit = true := hdig c (by rw [hcr]; exact List.mem_cons_self c rest)
  have hall : ∀ x ∈ c :: rest, Char.isDigit x = true := by
    rw [← hcr]; exact hdig
  unfold sscanNatL
  rw [hcr, dropWhile_cons_of_neg c rest (isSpaceChar_of_isDigit hc)]
  simp only [hc, if_pos]
  rw [takeWhile_eq_self_of_all _ hall, ← hcr]
  rw [show parseDigits (natToDecL n) = n from parseDigits_natToDecAux n n (Nat.le_refl n)]

theorem sscanNat_natToDec (n : Nat) : sscanNat (natToDec n) = .ok n :=
  sscanNatL_natToDecL n

/-! ## Process environment -/

/-- `os.Getenv`: the empty string when the variable is unset. -/
def getenv (env : List (String × String)) (k : String) : String :=
  match env.find? (fun kv => kv.1 == k) with
  | some kv => kv.2
  | none => ""

theorem getenv_cons_self (e : List (String × String)) (k v : String) :
    getenv ((k, v) :: e) k = v := by
  simp [getenv, List.find?_cons]

theorem getenv_cons_ne (e : List (String × String)) (k' v k : String)
    (h : (k' == k) = false) : getenv ((k', v) :: e) k = getenv e k := by
  simp [getenv, List.find?_cons, h]

/-! ## Errors of the library -/

/-- The error taxonomy surfaced by the embedded operations. -/
inductive GoError where
  | eofError
  | parseError
  | unsupportedListener (ty : String)
  | typeMismatch (ty : String)
  | fileListenerFailed
  | selfReexecGuard
  | lookPathFailure
  | getwdFailure
  | startProcessFailure
  | timedOut
deriving DecidableEq, Repr

/-! ## Listeners, sockets and the descriptor table -/

/-- The kind of socket underlying a descriptor. -/
inductive SockKind where
  | tcpSock
  | unixSock
  | otherSock
deriving DecidableEq, Repr

/-- A bound listening socket as seen through a descriptor. -/
structure Socket where
  kind : SockKind
  network : String
  addr : String
deriving DecidableEq, Repr

/-- A `net.Listener` value: `*net.TCPListener`, `*net.UnixListener`, or any
other dynamic listener type. -/
inductive NetListener where
  | tcpListener (network addr : String)
  | unixListener (network addr : String)
  | otherListener (network addr : String)
deriving DecidableEq, Repr

/-- `l.Addr().Network()`. -/
def NetListener.addrNetwork : NetListener → String
  | .tcpListener n _ => n
  | .unixListener n _ => n
  | .otherListener n _ => n

/-- `l.Addr().String()`. -/
def NetListener.addrString : NetListener → String
  | .tcpListener _ a => a
  | .unixListener _ a => a
  | .otherListener _ a => a

/-- The dynamic type name reported in `%T`-style error messages. -/
def NetListener.typeName : NetListener → String
  | .tcpListener _ _ => "*net.TCPListener"
  | .unixListener _ _ => "*net.UnixListener"
  | .otherListener n _ => n

/-- Whether the listener is one of the two variants the library accepts. -/
def NetListener.isAccepted : NetListener → Bool
  | .tcpListener _ _ => true
  | .unixListener _ _ => true
  | .otherListener _ _ => false

/-- The socket underlying an accepted listener (`t.File()` exposes it);
`none` for the unsupported variants, which have no `File` method arm. -/
def socketOf : NetListener → Option Socket
  | .tcpListener n a => some ⟨.tcpSock, n, a⟩
  | .unixListener n a => some ⟨.unixSock, n, a⟩
  | .otherListener _ _ => none

/-- `net.FileListener`: reconstruct a listener from the socket behind a
descriptor. -/
def fileListener (sock : Socket) : NetListener :=
  match sock.kind with
  | .tcpSock => .tcpListener sock.network sock.addr
  | .unixSock => .unixListener sock.network sock.addr
  | .otherSock => .otherListener sock.network sock.addr

/-- Process-wide state: the environment, the open-descriptor table, the next
free descriptor number, and the log of `os.Setenv` calls performed (most
recent first). -/
structure Sys where
  env : List (String × String)
  fds : List (Nat × Socket)
  nextFd : Nat
  writes : List (String × String)
deriving DecidableEq, Repr

/-- `os.Setenv`, also recording the write. -/
def setenv (s : Sys) (k v : String) : Sys :=
  { s with env := (k, v) :: s.env, writes := (k, v) :: s.writes }

/-- Look a descriptor up in the open-descriptor table. -/
def lookupFd (s : Sys) (n : Nat) : Option Socket :=
  match s.fds.find? (fun p => p.1 == n) with
  | some p => some p.2
  | none => none

/-- Number of recorded `os.Setenv` calls whose key is `k`. -/
def countWrites (w : List (String × String)) (k : String) : Nat :=
  (w.filter (fun kv => kv.1 == k)).length

/-! ## Listener Handoff: encode (`setEnvs`) and decode (`Listener`) -/

/-- `setEnvs` (identical in both generations): reject any listener that is
not TCP or unix-domain; otherwise dup the listener's descriptor via
`t.File()` and record descriptor number and `"<network>:<address>->"` name
in the environment. -/
def setEnvs (l : NetListener) (s : Sys) : Except GoError (Nat × Sys) :=
  match socketOf l with
  | none => .error (.unsupportedListener l.typeName)
  | some sock =>
    let fd := s.nextFd
    let s1 : Sys := { s with fds := (fd, sock) :: s.fds, nextFd := s.nextFd + 1 }
    let s2 := setenv s1 "GOAGAIN_FD" (natToDec fd)
    let s3 := setenv s2 "GOAGAIN_NAME" (l.addrNetwork ++ ":" ++ l.addrString ++ "->")
    .ok (fd, s3)

/-- `Listener` (identical in both generations): scan the descriptor number
from `GOAGAIN_FD`, reconstruct a listener from that descriptor with
`net.FileListener`, and fail with a type mismatch unless the result is a
TCP or unix-domain listener. -/
def Listener (s : Sys) : Except GoError NetListener :=
  match sscanNat (getenv s.env "GOAGAIN_FD") with
  | .eof => .error .eofError
  | .parseErr => .error .parseError
  | .ok fd =>
    match lookupFd s fd with
    | none => .error .fileListenerFailed
    | some sock =>
      let l := fileListener sock
      if l.isAccepted then .ok l else .error (.typeMismatch l.typeName)

/-! ## Restart strategy -/

/-- The two restart strategies of the classic generation. -/
inductive Strategy where
  | Single
  | Double
deriving DecidableEq, BEq, Repr

/-! ## Kill (both generations) -/

/-- The effect of a successful `Kill`: send `sig` to `pid`; `reap` records
whether a concurrent `syscall.Wait4` on the target was started. -/
structure KillAct where
  pid : Int
  sig : Int
  reap : Bool
deriving DecidableEq, Repr

/-- Classic-generation `Kill`: target pid from `GOAGAIN_PID`, falling back
to `GOAGAIN_PPID` exactly when the first scan returns `io.EOF`; signal from
`GOAGAIN_SIGNAL`, defaulting to `SIGQUIT` on any scan error; with the
`Double` strategy and a `SIGQUIT` signal, also reap the target. -/
def Kill (st : Strategy) (env : List (String × String)) : Except GoError KillAct :=
  let pidRes : Except GoError Int :=
    match sscanInt (getenv env "GOAGAIN_PID") with
    | .ok n => .ok n
    | .parseErr => .error .parseError
    | .eof =>
      match sscanInt (getenv env "GOAGAIN_PPID") with
      | .ok n => .ok n
      | .parseErr => .error .parseError
      | .eof => .error .eofError
  match pidRes with
  | .error e => .error e
  | .ok pid =>
    let sig : Int :=
      match sscanInt (getenv env "GOAGAIN_SIGNAL") with
      | .ok n => n
      | _ => (SIGQUIT : Nat)
    .ok { pid := pid, sig := sig,
          reap := (sig == ((SIGQUIT : Nat) : Int)) && (st == Strategy.Double) }

/-- Bounded-wait-generation `Kill`: the same pid resolution, but the signal
is the caller's argument (the `GOAGAIN_SIGNAL` field is not read), and no
reaping is performed. -/
def KillG2 (env : List (String × String)) (sig : Int) : Except GoError KillAct :=
  let pidRes : Except GoError Int :=
    match sscanInt (getenv env "GOAGAIN_PID") with
    | .ok n => .ok n
    | .parseErr => .error .parseError
    | .eof =>
      match sscanInt (getenv env "GOAGAIN_PPID") with
      | .ok n => .ok n
      | .parseErr => .error .parseError
      | .eof => .error .eofError
  match pidRes with
  | .error e => .error e
  | .ok pid => .ok { pid := pid, sig := sig, reap := false }

/-! ## Process Spawner (both generations) -/

/-- Classic-generation `ForkExec`: resolve the executable, capture the
working directory, encode the listener, clear `GOAGAIN_PID`, record
`GOAGAIN_PPID`, pick the handshake signal from the strategy and record it
in `GOAGAIN_SIGNAL`, start the child, and on success record the child pid
in `GOAGAIN_PID`.  `lookRes`, `getwdRes` and `startRes` are the outcomes of
`exec.LookPath`/`os.Stat`, `os.Getwd` and `os.StartProcess`. -/
def ForkExec (st : Strategy) (selfPid : Nat)
    (lookRes getwdRes : Except GoError String)
    (startRes : Except GoError Nat)
    (l : NetListener) (s : Sys) : Except GoError Unit × Sys :=
  match lookRes with
  | .error e => (.error e, s)
  | .ok _argv0 =>
    match getwdRes with
    | .error e => (.error e, s)
    | .ok _wd =>
      match setEnvs l s with
      | .error e => (.error e, s)
      | .ok (_fd, s1) =>
        let s2 := setenv s1 "GOAGAIN_PID" ""
        let s3 := setenv s2 "GOAGAIN_PPID" (natToDec selfPid)
        let sig := if st = Strategy.Double then SIGUSR2 else SIGQUIT
        let s4 := setenv s3 "GOAGAIN_SIGNAL" (natToDec sig)
        match startRes with
        | .error e => (.error e, s4)
        | .ok childPid => (.ok (), setenv s4 "GOAGAIN_PID" (natToDec childPid))

/-- Bounded-wait-generation `forkExec`: identical to the classic spawner
except that no `GOAGAIN_SIGNAL` field is written — the `quitSignal`
parameter is accepted but unused by the function body — and the spawned
child's pid is returned on success. -/
def forkExec (selfPid : Nat) (lookRes getwdRes : Except GoError String)
    (startRes : Except GoError Nat)
    (l : NetListener) (_quitSignal : Nat) (s : Sys) : Except GoError Nat × Sys :=
  match lookRes with
  | .error e => (.error e, s)
  | .ok _argv0 =>
    match getwdRes with
    | .error e => (.error e, s)
    | .ok _wd =>
      match setEnvs l s with
      | .error e => (.error e, s)
      | .ok (_fd, s1) =>
        let s2 := setenv s1 "GOAGAIN_PID" ""
        let s3 := setenv s2 "GOAGAIN_PPID" (natToDec selfPid)
        match startRes with
        | .error e => (.error e, s3)
        | .ok childPid => (.ok childPid, setenv s3 "GOAGAIN_PID" (natToDec childPid))

/-! ## In-place re-exec (`Exec`, classic generation only) -/

/-- Outcome of `Exec`: either the process image was replaced (the
`syscall.Exec` point was reached) or an error was returned first; both
carry the process state at that moment. -/
inductive ExecOutcome where
  | replaced (argv0 : String) (s : Sys)
  | failed (e : GoError) (s : Sys)
deriving DecidableEq, Repr

/-- Whether `Exec` reached the `syscall.Exec` point. -/
def ExecOutcome.isReplaced : ExecOutcome → Bool
  | .replaced _ _ => true
  | .failed _ _ => false

/-- Classic-generation `Exec`: scan `GOAGAIN_PID` ignoring scan errors (the
scanned variable keeps its zero value on failure), refuse when the caller's
parent pid equals that value, then resolve the executable, encode the
listener, set `GOAGAIN_SIGNAL` to `SIGQUIT` and replace the process
image.  `ppid` is the caller's `syscall.Getppid()`. -/
def Exec (ppid : Int) (lookRes : Except GoError String)
    (l : NetListener) (s : Sys) : ExecOutcome :=
  let pid : Int :=
    match sscanInt (getenv s.env "GOAGAIN_PID") with
    | .ok n => n
    | _ => 0
  if ppid = pid then .failed .selfReexecGuard s
  else
    match lookRes with
    | .error e => .failed e s
    | .ok argv0 =>
      match setEnvs l s with
      | .error e => .failed e s
      | .ok (_fd, s1) => .replaced argv0 (setenv s1 "GOAGAIN_SIGNAL" (natToDec SIGQUIT))

/-! ## Signal Coordinator: the classic `Wait` loop -/

/-- The signals the classic coordinator registers for. -/
inductive Sig where
  | hup
  | int
  | quit
  | term
  | usr1
  | usr2
deriving DecidableEq, Repr

/-- A benign signal: handled by an optional hook, never ends the loop. -/
def isBenign (x : Sig) : Prop := x = Sig.hup ∨ x = Sig.usr1

/-- Loop-local state of the classic `Wait`: the `forked` flag plus counters
of hook and spawner invocations (the counters model how often the
corresponding calls were made). -/
structure WaitState where
  forked : Bool
  hupCalls : Nat
  usr1Calls : Nat
  forkCalls : Nat
deriving DecidableEq, Repr

/-- The initial loop state: not yet forked, nothing invoked. -/
def waitInit : WaitState := ⟨false, 0, 0, 0⟩

/-- One iteration's outcome: keep looping, or return `(signal, error)`. -/
inductive StepOut where
  | goOn (s : WaitState)
  | ret (s : WaitState) (sig : Nat) (err : Option GoError)
deriving DecidableEq, Repr

/-- One iteration of the classic `Wait` loop on a received signal.
`hupHook`/`usr1Hook` are the registered `OnSIGHUP`/`OnSIGUSR1` hooks
(`none` when unregistered); the hook oracle maps the invocation number to
the error the hook returns, which the loop logs and discards.  `forkErr` is
the outcome of the single possible `ForkExec` call. -/
def waitStep (hupHook usr1Hook : Option (Nat → Option GoError))
    (forkErr : Option GoError) (s : WaitState) : Sig → StepOut
  | .hup =>
    match hupHook with
    | none => .goOn s
    | some _h => .goOn { s with hupCalls := s.hupCalls + 1 }
  | .int => .ret s SIGINT none
  | .quit => .ret s SIGQUIT none
  | .term => .ret s SIGTERM none
  | .usr1 =>
    match usr1Hook with
    | none => .goOn s
    | some _h => .goOn { s with usr1Calls := s.usr1Calls + 1 }
  | .usr2 =>
    if s.forked then .ret s SIGUSR2 none
    else
      let s1 := { s with forked := true, forkCalls := s.forkCalls + 1 }
      match forkErr with
      | some e => .ret s1 SIGUSR2 (some e)
      | none => .goOn s1

/-- Run the classic `Wait` loop over a list of delivered signals; `none`
means the loop is still blocked waiting for further signals. -/
def waitRun (hupHook usr1Hook : Option (Nat → Option GoError))
    (forkErr : Option GoError) :
    WaitState → List Sig → Option (WaitState × Nat × Option GoError)
  | _, [] => none
  | s, sig :: rest =>
    match waitStep hupHook usr1Hook forkErr s sig with
    | .goOn s' => waitRun hupHook usr1Hook forkErr s' rest
    | .ret s' n e => some (s', n, e)

/-- Classic-generation `Wait`, started in the initial loop state. -/
def Wait (hupHook usr1Hook : Option (Nat → Option GoError))
    (forkErr : Option GoError) (sigs : List Sig) :
    Option (WaitState × Nat × Option GoError) :=
  waitRun hupHook usr1Hook forkErr waitInit sigs

/-! ## Signal Coordinator: the bounded-wait generation's `Wait` -/

/-- Bounded-wait-generation `Wait`, from the fork signal onwards: spawn via
`forkExec` (outcome `forkRes`); on spawn failure return that error.  On
success race the child's quit signal against the timeout: `quitArrives`
says whether the quit signal arrived within the timeout.  The result is
the returned error (`none` for success) paired with whether the
unconfirmed child was killed. -/
def WaitT (forkRes : Except GoError Nat) (quitArrives : Bool) :
    Option GoError × Bool :=
  match forkRes with
  | .error e => (some e, false)
  | .ok _childPid =>
    if quitArrives then (none, false)
    else (some .timedOut, true)

/-! ## Helper lemmas about the classic loop -/

theorem waitStep_benign (hupHook usr1Hook : Option (Nat → Option GoError))
    (forkErr : Option GoError) (s : WaitState) (x : Sig) (hx : isBenign x) :
    ∃ s', waitStep hupHook usr1Hook forkErr s x = .goOn s' ∧
      s'.forked = s.forked ∧ s'.forkCalls = s.forkCalls := by
  rcases hx with rfl | rfl
  · cases hupHook with
    | none => exact ⟨s, rfl, rfl, rfl⟩
    | some h => exact ⟨{ s with hupCalls := s.hupCalls + 1 }, rfl, rfl, rfl⟩
  · cases usr1Hook with
    | none => exact ⟨s, rfl, rfl, rfl⟩
    | some h => exact ⟨{ s with usr1Calls := s.usr1Calls + 1 }, rfl, rfl, rfl⟩

theorem waitRun_benign (hupHook usr1Hook : Option (Nat → Option GoError))
    (forkErr : Option GoError) (pre : List Sig) :
    ∀ s : WaitState, (∀ x ∈ pre, isBenign x) →
    ∃ s', (∀ rest, waitRun hupHook usr1Hook forkErr s (pre ++ rest) =
            waitRun hupHook usr1Hook forkErr s' rest) ∧
      s'.forked = s.forked ∧ s'.forkCalls = s.forkCalls := by
  induction pre with
  | nil => exact fun s _ => ⟨s, fun rest => rfl, rfl, rfl⟩
  | cons x t ih =>
    intro s hpre
    obtain ⟨s1, hstep, hf1, hc1⟩ :=
      waitStep_benign hupHook usr1Hook forkErr s x (hpre x (List.mem_cons_self x t))
    obtain ⟨s', hrun, hf2, hc2⟩ :=
      ih s1 (fun y hy => hpre y (List.mem_cons_of_mem x hy))
    refine ⟨s', fun rest => ?_, hf2.trans hf1, hc2.trans hc1⟩
    rw [List.cons_append]
    show (match waitStep hupHook usr1Hook forkErr s x with
      | .goOn s' => waitRun hupHook usr1Hook forkErr s' (t ++ rest)
      | .ret s' n e => some (s', n, e)) = _
    rw [hstep]
    exact hrun rest

/-! ## C1 -/

/-- C1: for every listener of an accepted variant (TCP or unix-domain),
running the decoder `Listener` in the state produced by the encoder
`setEnvs` — environment set and the produced descriptor inherited — yields
a listener whose address string equals the original listener's address
string. -/
theorem C1_encode_decode_roundtrip (l : NetListener) (s : Sys) (fd : Nat) (s' : Sys)
    (hacc : l.isAccepted = true) (henc : setEnvs l s = .ok (fd, s')) :
    ∃ l', Listener s' = .ok l' ∧ l'.addrString = l.addrString := by
  have hne : ∀ (e : List (String × String)) (v : String),
      getenv (("GOAGAIN_NAME", v) :: e) "GOAGAIN_FD" = getenv e "GOAGAIN_FD" :=
    fun e v => getenv_cons_ne e "GOAGAIN_NAME" v "GOAGAIN_FD" (by decide)
  cases l with
  | otherListener n a => simp [NetListener.isAccepted] at hacc
  | tcpListener n a =>
    refine ⟨.tcpListener n a, ?_, rfl⟩
    simp only [setEnvs, socketOf, Except.ok.injEq, Prod.mk.injEq] at henc
    obtain ⟨rfl, rfl⟩ := henc
    simp [Listener, setenv, hne, getenv_cons_self, sscanNat_natToDec, lookupFd,
          List.find?_cons, fileListener, NetListener.isAccepted]
  | unixListener n a =>
    refine ⟨.unixListener n a, ?_, rfl⟩
    simp only [setEnvs, socketOf, Except.ok.injEq, Prod.mk.injEq] at henc
    obtain ⟨rfl, rfl⟩ := henc
    simp [Listener, setenv, hne, getenv_cons_self, sscanNat_natToDec, lookupFd,
          List.find?_cons, fileListener, NetListener.isAccepted]

/-- Witness for C1 at a concrete TCP listener and a concrete initial state. -/
theorem C1_encode_decode_roundtrip_witness :
    ∃ l', Listener ⟨[("GOAGAIN_NAME", "tcp" ++ ":" ++ "127.0.0.1:48879" ++ "->"),
                     ("GOAGAIN_FD", natToDec 3)],
                    [(3, ⟨SockKind.tcpSock, "tcp", "127.0.0.1:48879"⟩)], 4,
                    [("GOAGAIN_NAME", "tcp" ++ ":" ++ "127.0.0.1:48879" ++ "->"),
                     ("GOAGAIN_FD", natToDec 3)]⟩ = .ok l' ∧
      l'.addrString = (NetListener.tcpListener "tcp" "127.0.0.1:48879").addrString :=
  C1_encode_decode_roundtrip (NetListener.tcpListener "tcp" "127.0.0.1:48879")
    ⟨[], [], 3, []⟩ 3
    ⟨[("GOAGAIN_NAME", "tcp" ++ ":" ++ "127.0.0.1:48879" ++ "->"),
      ("GOAGAIN_FD", natToDec 3)],
     [(3, ⟨SockKind.tcpSock, "tcp", "127.0.0.1:48879"⟩)], 4,
     [("GOAGAIN_NAME", "tcp" ++ ":" ++ "127.0.0.1:48879" ++ "->"),
      ("GOAGAIN_FD", natToDec 3)]⟩
    rfl rfl

/-! ## C8 -/

/-- C8: the encoder succeeds only on the TCP and unix-domain variants and
returns the unsupported-type error on every other variant; the decoder
returns a listener only of those two variants, and returns the
type-mismatch error whenever the listener reconstructed from the inherited
descriptor is of any other variant. -/
theorem C8_variant_gating :
    (∀ (n a : String) (s : Sys),
        setEnvs (NetListener.otherListener n a) s = .error (.unsupportedListener n))
  ∧ (∀ (l : NetListener) (s : Sys) (r : Nat × Sys),
        setEnvs l s = .ok r → l.isAccepted = true)
  ∧ (∀ (s : Sys) (l : NetListener), Listener s = .ok l → l.isAccepted = true)
  ∧ (∀ (s : Sys) (fd : Nat) (sock : Socket),
        sscanNat (getenv s.env "GOAGAIN_FD") = .ok fd →
        lookupFd s fd = some sock →
        (fileListener sock).isAccepted = false →
        Listener s = .error (.typeMismatch (fileListener sock).typeName)) := by
  refine ⟨fun n a s => rfl, ?_, ?_, ?_⟩
  · intro l s r h
    cases l with
    | tcpListener n a => rfl
    | unixListener n a => rfl
    | otherListener n a => simp [setEnvs, socketOf] at h
  · intro s l h
    unfold Listener at h
    split at h
    · exact absurd h (by simp)
    · exact absurd h (by simp)
    · split at h
      · exact absurd h (by simp)
      · rename_i sock hsock
        rcases hacc : (fileListener sock).isAccepted with _ | _
        · simp [hacc] at h
        · simp only [hacc, if_true] at h
          simp only [Except.ok.injEq] at h
          subst h
          exact hacc
  · intro s fd sock hscan hfd hrej
    simp [Listener, hscan, hfd, hrej]

/-- Witness for C8: a concrete rejected encode and a concrete type-mismatch
decode. -/
theorem C8_variant_gating_witness :
    setEnvs (NetListener.otherListener "ip+net" "127.0.0.0/8") ⟨[], [], 0, []⟩ =
      .error (.unsupportedListener "ip+net") ∧
    Listener ⟨[("GOAGAIN_FD", natToDec 5)], [(5, ⟨SockKind.otherSock, "ip", "192.0.2.1"⟩)], 6, []⟩ =
      .error (.typeMismatch "ip") :=
  ⟨C8_variant_gating.1 "ip+net" "127.0.0.0/8" ⟨[], [], 0, []⟩,
   C8_variant_gating.2.2.2 ⟨[("GOAGAIN_FD", natToDec 5)],
      [(5, ⟨SockKind.otherSock, "ip", "192.0.2.1"⟩)], 6, []⟩ 5
      ⟨SockKind.otherSock, "ip", "192.0.2.1"⟩
      (by rw [getenv_cons_self]; exact sscanNat_natToDec 5) rfl rfl⟩

/-! ## C2 -/

/-- C2: evidence that the self-reexec guard keys on the successor-pid field
`GOAGAIN_PID`, not on the predecessor-pid field `GOAGAIN_PPID`.  A freshly
spawned child has `GOAGAIN_PPID` equal to its parent pid and `GOAGAIN_PID`
empty (the spawner clears it before the child's environment snapshot), yet
`Exec` in that state proceeds all the way to the `syscall.Exec` point; the
guard error is produced instead when the caller's parent pid equals the
`GOAGAIN_PID` value, a state no protocol flow produces. -/
theorem C2_guard_keys_on_successor_field :
    (sscanInt (getenv [("GOAGAIN_PPID", "7")] "GOAGAIN_PPID") = .ok 7
  ∧ (Exec 7 (.ok "/srv/app") (NetListener.tcpListener "tcp" "127.0.0.1:48879")
      ⟨[("GOAGAIN_PPID", "7")], [], 0, []⟩).isReplaced = true)
  ∧ Exec 7 (.ok "/srv/app") (NetListener.tcpListener "tcp" "127.0.0.1:48879")
      ⟨[("GOAGAIN_PID", "7")], [], 0, []⟩ =
      .failed .selfReexecGuard ⟨[("GOAGAIN_PID", "7")], [], 0, []⟩ :=
  ⟨⟨rfl, rfl⟩, rfl⟩

/-! ## C5 -/

/-- C5: in the bounded-wait coordinator, whenever the spawn succeeded and
the child's ready signal does not arrive within the timeout, the
coordinator kills the unconfirmed child and returns the timeout error —
never a success result. -/
theorem C5_timeout_kills_child_and_errors (childPid : Nat) :
    WaitT (.ok childPid) false = (some GoError.timedOut, true) := rfl

/-! ## C7 -/

/-- C7: a reload signal invokes the registered reload hook exactly once
(the invocation counter advances by exactly one) and never makes the loop
return, whatever error the hook returns — the step continues with the loop
state otherwise unchanged, and the run over any following signals proceeds
from that state. -/
theorem C7_reload_hook_once_never_returns (h : Nat → Option GoError)
    (usr1Hook : Option (Nat → Option GoError)) (forkErr : Option GoError)
    (s : WaitState) (rest : List Sig) :
    waitStep (some h) usr1Hook forkErr s Sig.hup =
      StepOut.goOn { s with hupCalls := s.hupCalls + 1 }
  ∧ waitRun (some h) usr1Hook forkErr s (Sig.hup :: rest) =
      waitRun (some h) usr1Hook forkErr { s with hupCalls := s.hupCalls + 1 } rest :=
  ⟨rfl, rfl⟩

/-! ## C6 -/

instance (x : Sig) : Decidable (isBenign x) := by
  unfold isBenign
  infer_instance

/-- C6: in the classic coordinator loop, after any prefix of benign
(hook-handled) signals, the first restart-trigger signal invokes the
spawner (the invocation count becomes one); if the spawn fails the loop
returns immediately with that error, and otherwise a second
restart-trigger — after further benign signals — makes the loop return the
signal with no error and without invoking the spawner again. -/
theorem C6_restart_trigger (hupHook usr1Hook : Option (Nat → Option GoError))
    (e : GoError) (pre mid rest1 rest2 : List Sig)
    (hpre : ∀ x ∈ pre, isBenign x) (hmid : ∀ x ∈ mid, isBenign x) :
    (∃ st, Wait hupHook usr1Hook (some e) (pre ++ Sig.usr2 :: rest1) =
        some (st, SIGUSR2, some e) ∧ st.forkCalls = 1)
  ∧ (∃ st, Wait hupHook usr1Hook none (pre ++ Sig.usr2 :: (mid ++ Sig.usr2 :: rest2)) =
        some (st, SIGUSR2, none) ∧ st.forkCalls = 1) := by
  constructor
  · obtain ⟨s1, hrun, hf, hc⟩ := waitRun_benign hupHook usr1Hook (some e) pre waitInit hpre
    have hf' : s1.forked = false := hf
    have hc' : s1.forkCalls = 0 := hc
    have hstep : waitStep hupHook usr1Hook (some e) s1 Sig.usr2 =
        .ret { s1 with forked := true, forkCalls := s1.forkCalls + 1 } SIGUSR2 (some e) := by
      simp [waitStep, hf']
    refine ⟨{ s1 with forked := true, forkCalls := s1.forkCalls + 1 }, ?_, by simp [hc']⟩
    show waitRun hupHook usr1Hook (some e) waitInit (pre ++ Sig.usr2 :: rest1) = _
    rw [hrun (Sig.usr2 :: rest1)]
    show (match waitStep hupHook usr1Hook (some e) s1 Sig.usr2 with
      | .goOn s' => waitRun hupHook usr1Hook (some e) s' rest1
      | .ret s' n er => some (s', n, er)) = _
    rw [hstep]
  · obtain ⟨s1, hrun1, hf1, hc1⟩ := waitRun_benign hupHook usr1Hook none pre waitInit hpre
    have hf1' : s1.forked = false := hf1
    have hc1' : s1.forkCalls = 0 := hc1
    have hstep1 : waitStep hupHook usr1Hook none s1 Sig.usr2 =
        .goOn { s1 with forked := true, forkCalls := s1.forkCalls + 1 } := by
      simp [waitStep, hf1']
    obtain ⟨s3, hrun2, hf2, hc2⟩ := waitRun_benign hupHook usr1Hook none mid
      { s1 with forked := true, forkCalls := s1.forkCalls + 1 } hmid
    have hf2' : s3.forked = true := hf2
    have hstep2 : waitStep hupHook usr1Hook none s3 Sig.usr2 =
        .ret s3 SIGUSR2 none := by
      simp [waitStep, hf2']
    refine ⟨s3, ?_, by rw [hc2]; simp [hc1']⟩
    show waitRun hupHook usr1Hook none waitInit
      (pre ++ Sig.usr2 :: (mid ++ Sig.usr2 :: rest2)) = _
    rw [hrun1 (Sig.usr2 :: (mid ++ Sig.usr2 :: rest2))]
    show (match waitStep hupHook usr1Hook none s1 Sig.usr2 with
      | .goOn s' => waitRun hupHook usr1Hook none s' (mid ++ Sig.usr2 :: rest2)
      | .ret s' n er => some (s', n, er)) = _
    rw [hstep1]
    show waitRun hupHook usr1Hook none _ (mid ++ Sig.usr2 :: rest2) = _
    rw [hrun2 (Sig.usr2 :: rest2)]
    show (match waitStep hupHook usr1Hook none s3 Sig.usr2 with
      | .goOn s' => waitRun hupHook usr1Hook none s' rest2
      | .ret s' n er => some (s', n, er)) = _
    rw [hstep2]

/-- Witness for C6 at a concrete hook, spawn error and signal sequences. -/
theorem C6_restart_trigger_witness :
    (∀ x ∈ [Sig.hup], isBenign x) ∧ (∀ x ∈ [Sig.usr1], isBenign x) ∧
    ((∃ st, Wait (some fun _n => some GoError.parseError) none
          (some GoError.startProcessFailure) ([Sig.hup] ++ Sig.usr2 :: []) =
          some (st, SIGUSR2, some GoError.startProcessFailure) ∧ st.forkCalls = 1)
   ∧ (∃ st, Wait (some fun _n => some GoError.parseError) none none
          ([Sig.hup] ++ Sig.usr2 :: ([Sig.usr1] ++ Sig.usr2 :: [Sig.quit])) =
          some (st, SIGUSR2, none) ∧ st.forkCalls = 1)) :=
  ⟨by decide, by decide,
   C6_restart_trigger (some fun _n => some GoError.parseError) none
     GoError.startProcessFailure [Sig.hup] [Sig.usr1] [] [Sig.quit]
     (by decide) (by decide)⟩

/-! ## C4 -/

/-- C4 counterexample: in the bounded-wait generation, `Kill` sends the
signal passed by its caller even when the handshake field `GOAGAIN_SIGNAL`
is present with a different value, so the signal is not determined from the
environment (nor does the `SIGQUIT` default apply) in that generation. -/
theorem C4_counterexample :
    KillG2 [("GOAGAIN_PID", "7"), ("GOAGAIN_SIGNAL", "3")] 15 =
      .ok { pid := 7, sig := 15, reap := false } ∧ (15 : Int) ≠ 3 :=
  ⟨rfl, by decide⟩

/-- C4 amended: in both generations the target pid prefers the
successor-pid field and falls back to the predecessor-pid field when the
first scan hits end-of-input, and an error is returned when no pid can be
determined; the signal is determined from the handshake field with a
`SIGQUIT` default in the classic generation only, while the bounded-wait
generation's `Kill` uses the signal supplied as its argument. -/
theorem C4_amended_kill_resolution (st : Strategy) (env : List (String × String))
    (sigArg : Int) :
    (∀ p : Int, sscanInt (getenv env "GOAGAIN_PID") = .ok p →
        ∃ act, Kill st env = .ok act ∧ act.pid = p)
  ∧ (∀ q : Int, sscanInt (getenv env "GOAGAIN_PID") = .eof →
        sscanInt (getenv env "GOAGAIN_PPID") = .ok q →
        ∃ act, Kill st env = .ok act ∧ act.pid = q)
  ∧ (sscanInt (getenv env "GOAGAIN_PID") = .eof →
        sscanInt (getenv env "GOAGAIN_PPID") = .eof →
        Kill st env = .error .eofError)
  ∧ (∀ (p n : Int), sscanInt (getenv env "GOAGAIN_PID") = .ok p →
        sscanInt (getenv env "GOAGAIN_SIGNAL") = .ok n →
        ∃ act, Kill st env = .ok act ∧ act.sig = n)
  ∧ (∀ p : Int, sscanInt (getenv env "GOAGAIN_PID") = .ok p →
        (sscanInt (getenv env "GOAGAIN_SIGNAL") = .eof ∨
         sscanInt (getenv env "GOAGAIN_SIGNAL") = .parseErr) →
        ∃ act, Kill st env = .ok act ∧ act.sig = ((SIGQUIT : Nat) : Int))
  ∧ (∀ p : Int, sscanInt (getenv env "GOAGAIN_PID") = .ok p →
        ∃ act, KillG2 env sigArg = .ok act ∧ act.pid = p ∧ act.sig = sigArg)
  ∧ (∀ q : Int, sscanInt (getenv env "GOAGAIN_PID") = .eof →
        sscanInt (getenv env "GOAGAIN_PPID") = .ok q →
        ∃ act, KillG2 env sigArg = .ok act ∧ act.pid = q ∧ act.sig = sigArg)
  ∧ (sscanInt (getenv env "GOAGAIN_PID") = .eof →
        sscanInt (getenv env "GOAGAIN_PPID") = .eof →
        KillG2 env sigArg = .error .eofError) := by
  refine ⟨?_, ?_, ?_, ?_, ?_, ?_, ?_, ?_⟩
  · intro p h1
    simp only [Kill, h1]
    exact ⟨_, rfl, rfl⟩
  · intro q h1 h2
    simp only [Kill, h1, h2]
    exact ⟨_, rfl, rfl⟩
  · intro h1 h2
    simp only [Kill, h1, h2]
  · intro p n h1 h2
    simp only [Kill, h1, h2]
    exact ⟨_, rfl, rfl⟩
  · intro p h1 h2
    rcases h2 with h2 | h2 <;>
      · simp only [Kill, h1, h2]
        exact ⟨_, rfl, rfl⟩
  · intro p h1
    simp only [KillG2, h1]
    exact ⟨_, rfl, rfl, rfl⟩
  · intro q h1 h2
    simp only [KillG2, h1, h2]
    exact ⟨_, rfl, rfl, rfl⟩
  · intro h1 h2
    simp only [KillG2, h1, h2]

/-- Witness for C4's amended statement at concrete environments, exercising
the successor-pid path of both generations and the bounded-wait
generation's fallback to the predecessor-pid field. -/
theorem C4_amended_kill_resolution_witness :
    (∃ act, Kill Strategy.Single [("GOAGAIN_PID", "7")] = .ok act ∧ act.pid = 7)
  ∧ (∃ act, KillG2 [("GOAGAIN_PID", "7")] 15 = .ok act ∧ act.pid = 7 ∧ act.sig = 15)
  ∧ (∃ act, KillG2 [("GOAGAIN_PPID", "9")] 15 = .ok act ∧ act.pid = 9 ∧ act.sig = 15)
  ∧ KillG2 [] 15 = .error .eofError :=
  ⟨(C4_amended_kill_resolution Strategy.Single [("GOAGAIN_PID", "7")] 15).1 7 (by rfl),
   (C4_amended_kill_resolution Strategy.Single
      [("GOAGAIN_PID", "7")] 15).2.2.2.2.2.1 7 (by rfl),
   (C4_amended_kill_resolution Strategy.Single
      [("GOAGAIN_PPID", "9")] 15).2.2.2.2.2.2.1 9 (by rfl) (by rfl),
   (C4_amended_kill_resolution Strategy.Single [] 15).2.2.2.2.2.2.2 (by rfl) (by rfl)⟩

/-! ## C10 -/

/-- C10: in both generations, `Kill` falls back from the successor-pid
field to the predecessor-pid field only when scanning the former yields
end-of-input; a non-empty unparseable successor-pid field makes `Kill`
return the parse error without consulting the predecessor-pid field (the
environment here is arbitrary, so `GOAGAIN_PPID` may well hold a valid
pid), and a parseable successor-pid field is used directly. -/
theorem C10_pid_fallback_only_on_eof (st : Strategy) (env : List (String × String))
    (sigArg : Int) :
    (sscanInt (getenv env "GOAGAIN_PID") = .parseErr →
        Kill st env = .error .parseError ∧ KillG2 env sigArg = .error .parseError)
  ∧ (∀ p : Int, sscanInt (getenv env "GOAGAIN_PID") = .ok p →
        ∃ act, Kill st env = .ok act ∧ act.pid = p)
  ∧ (∀ q : Int, sscanInt (getenv env "GOAGAIN_PID") = .eof →
        sscanInt (getenv env "GOAGAIN_PPID") = .ok q →
        ∃ act, Kill st env = .ok act ∧ act.pid = q) := by
  refine ⟨?_, ?_, ?_⟩
  · intro h1
    constructor
    · simp only [Kill, h1]
    · simp only [KillG2, h1]
  · intro p h1
    simp only [Kill, h1]
    exact ⟨_, rfl, rfl⟩
  · intro q h1 h2
    simp only [Kill, h1, h2]
    exact ⟨_, rfl, rfl⟩

/-- Witness for C10: a non-empty unparseable successor-pid field yields the
parse error even though the predecessor-pid field holds a valid pid. -/
theorem C10_pid_fallback_only_on_eof_witness :
    Kill Strategy.Single [("GOAGAIN_PID", "x7"), ("GOAGAIN_PPID", "9")] =
      .error .parseError ∧
    KillG2 [("GOAGAIN_PID", "x7"), ("GOAGAIN_PPID", "9")] 15 = .error .parseError :=
  (C10_pid_fallback_only_on_eof Strategy.Single
    [("GOAGAIN_PID", "x7"), ("GOAGAIN_PPID", "9")] 15).1 (by rfl)

/-! ## C3 -/

/-- C3 counterexample: a successful spawn by the bounded-wait generation's
`forkExec` writes no `GOAGAIN_SIGNAL` field at all — the write log contains
no entry for it and the variable is absent afterwards — so the
handshake-signal field is not produced on every fork-exec spawn in both
generations. -/
theorem C3_counterexample :
    (forkExec 100 (.ok "/srv/app") (.ok "/srv") (.ok 200)
        (NetListener.tcpListener "tcp" "127.0.0.1:48879") SIGQUIT ⟨[], [], 3, []⟩).1 =
      .ok 200
  ∧ List.filter (fun kv => kv.1 == "GOAGAIN_SIGNAL")
      (forkExec 100 (.ok "/srv/app") (.ok "/srv") (.ok 200)
        (NetListener.tcpListener "tcp" "127.0.0.1:48879") SIGQUIT ⟨[], [], 3, []⟩).2.writes
      = []
  ∧ getenv (forkExec 100 (.ok "/srv/app") (.ok "/srv") (.ok 200)
        (NetListener.tcpListener "tcp" "127.0.0.1:48879") SIGQUIT ⟨[], [], 3, []⟩).2.env
      "GOAGAIN_SIGNAL" = "" :=
  ⟨rfl, rfl, rfl⟩

/-- C3 amended: on every successful spawn by the classic generation's
`ForkExec`, the handshake-signal field is written as a function of the
strategy — `SIGUSR2`, distinct from the graceful-exit signal `SIGQUIT`,
under `Double`, and `SIGQUIT` itself under `Single`; the bounded-wait
generation's spawner does not produce this field. -/
theorem C3_amended_handshake_signal (st : Strategy) (selfPid : Nat) (argv0 wd : String)
    (childPid : Nat) (l : NetListener) (s : Sys) (hacc : l.isAccepted = true) :
    (ForkExec st selfPid (.ok argv0) (.ok wd) (.ok childPid) l s).1 = .ok ()
  ∧ getenv (ForkExec st selfPid (.ok argv0) (.ok wd) (.ok childPid) l s).2.env
      "GOAGAIN_SIGNAL" = natToDec (if st = Strategy.Double then SIGUSR2 else SIGQUIT)
  ∧ ("GOAGAIN_SIGNAL", natToDec (if st = Strategy.Double then SIGUSR2 else SIGQUIT)) ∈
      (ForkExec st selfPid (.ok argv0) (.ok wd) (.ok childPid) l s).2.writes
  ∧ SIGUSR2 ≠ SIGQUIT := by
  cases l with
  | otherListener n a => simp [NetListener.isAccepted] at hacc
  | tcpListener n a =>
    refine ⟨rfl, ?_, ?_, by decide⟩
    · simp [ForkExec, setEnvs, socketOf, setenv, getenv, List.find?_cons]
    · simp [ForkExec, setEnvs, socketOf, setenv]
  | unixListener n a =>
    refine ⟨rfl, ?_, ?_, by decide⟩
    · simp [ForkExec, setEnvs, socketOf, setenv, getenv, List.find?_cons]
    · simp [ForkExec, setEnvs, socketOf, setenv]

/-- Witness for C3's amended statement under each strategy. -/
theorem C3_amended_handshake_signal_witness :
    ((ForkExec Strategy.Double 100 (.ok "/srv/app") (.ok "/srv") (.ok 200)
        (NetListener.tcpListener "tcp" "127.0.0.1:48879") ⟨[], [], 3, []⟩).1 = .ok ()
  ∧ getenv (ForkExec Strategy.Double 100 (.ok "/srv/app") (.ok "/srv") (.ok 200)
        (NetListener.tcpListener "tcp" "127.0.0.1:48879") ⟨[], [], 3, []⟩).2.env
      "GOAGAIN_SIGNAL" =
      natToDec (if Strategy.Double = Strategy.Double then SIGUSR2 else SIGQUIT)
  ∧ ("GOAGAIN_SIGNAL",
      natToDec (if Strategy.Double = Strategy.Double then SIGUSR2 else SIGQUIT)) ∈
      (ForkExec Strategy.Double 100 (.ok "/srv/app") (.ok "/srv") (.ok 200)
        (NetListener.tcpListener "tcp" "127.0.0.1:48879") ⟨[], [], 3, []⟩).2.writes
  ∧ SIGUSR2 ≠ SIGQUIT)
  ∧ getenv (ForkExec Strategy.Single 100 (.ok "/srv/app") (.ok "/srv") (.ok 200)
        (NetListener.unixListener "unix" "/tmp/app.sock") ⟨[], [], 3, []⟩).2.env
      "GOAGAIN_SIGNAL" =
      natToDec (if Strategy.Single = Strategy.Double then SIGUSR2 else SIGQUIT) :=
  ⟨C3_amended_handshake_signal Strategy.Double 100 "/srv/app" "/srv" 200
      (NetListener.tcpListener "tcp" "127.0.0.1:48879") ⟨[], [], 3, []⟩ rfl,
   (C3_amended_handshake_signal Strategy.Single 100 "/srv/app" "/srv" 200
      (NetListener.unixListener "unix" "/tmp/app.sock") ⟨[], [], 3, []⟩ rfl).2.1⟩

/-! ## C9 -/

/-- C9 counterexample: on a successful spawn the successor-pid field is
written twice (cleared, then set to the child pid), and a spawn failure at
`os.StartProcess` leaves the environment changed from before the call —
the envelope fields are written but the successor pid is left cleared. -/
theorem C9_counterexample :
    countWrites (ForkExec Strategy.Single 100 (.ok "/srv/app") (.ok "/srv") (.ok 200)
        (NetListener.tcpListener "tcp" "127.0.0.1:48879") ⟨[], [], 3, []⟩).2.writes
      "GOAGAIN_PID" = 2
  ∧ (ForkExec Strategy.Single 100 (.ok "/srv/app") (.ok "/srv")
        (.error .startProcessFailure)
        (NetListener.tcpListener "tcp" "127.0.0.1:48879") ⟨[], [], 3, []⟩).1 =
      .error .startProcessFailure
  ∧ (ForkExec Strategy.Single 100 (.ok "/srv/app") (.ok "/srv")
        (.error .startProcessFailure)
        (NetListener.tcpListener "tcp" "127.0.0.1:48879") ⟨[], [], 3, []⟩).2.env ≠ [] :=
  ⟨rfl, rfl, by decide⟩

/-- C9 amended: per successful spawn, the descriptor, name, predecessor-pid
and handshake-signal fields are each written exactly once, while the
successor-pid field is written exactly twice (cleared before the spawn, set
after); failures before the encode step — at `exec.LookPath` or at
`os.Getwd` — leave the environment unchanged, while a failure at the spawn
step itself leaves the envelope updated with the successor-pid field
cleared and the name, descriptor, predecessor-pid and handshake-signal
fields set. -/
theorem C9_amended_envelope_writes (st : Strategy) (selfPid : Nat) (argv0 wd : String)
    (childPid : Nat) (l : NetListener) (s : Sys)
    (hacc : l.isAccepted = true) (hw : s.writes = []) :
    (countWrites (ForkExec st selfPid (.ok argv0) (.ok wd) (.ok childPid) l s).2.writes
        "GOAGAIN_FD" = 1
   ∧ countWrites (ForkExec st selfPid (.ok argv0) (.ok wd) (.ok childPid) l s).2.writes
        "GOAGAIN_NAME" = 1
   ∧ countWrites (ForkExec st selfPid (.ok argv0) (.ok wd) (.ok childPid) l s).2.writes
        "GOAGAIN_PPID" = 1
   ∧ countWrites (ForkExec st selfPid (.ok argv0) (.ok wd) (.ok childPid) l s).2.writes
        "GOAGAIN_SIGNAL" = 1
   ∧ countWrites (ForkExec st selfPid (.ok argv0) (.ok wd) (.ok childPid) l s).2.writes
        "GOAGAIN_PID" = 2)
  ∧ (∀ (e : GoError) (gw : Except GoError String) (sr : Except GoError Nat),
        ForkExec st selfPid (.error e) gw sr l s = (.error e, s))
  ∧ (∀ (e : GoError) (sr : Except GoError Nat),
        ForkExec st selfPid (.ok argv0) (.error e) sr l s = (.error e, s))
  ∧ (∀ e : GoError, ∃ s',
        ForkExec st selfPid (.ok argv0) (.ok wd) (.error e) l s = (.error e, s')
      ∧ getenv s'.env "GOAGAIN_PID" = ""
      ∧ getenv s'.env "GOAGAIN_PPID" = natToDec selfPid
      ∧ getenv s'.env "GOAGAIN_SIGNAL" =
          natToDec (if st = Strategy.Double then SIGUSR2 else SIGQUIT)
      ∧ getenv s'.env "GOAGAIN_FD" = natToDec s.nextFd
      ∧ getenv s'.env "GOAGAIN_NAME" =
          l.addrNetwork ++ ":" ++ l.addrString ++ "->") := by
  cases l with
  | otherListener n a => simp [NetListener.isAccepted] at hacc
  | tcpListener n a =>
    refine ⟨?_, fun e gw sr => rfl, fun e sr => rfl, ?_⟩
    · simp [ForkExec, setEnvs, socketOf, setenv, countWrites, hw]
    · intro e
      refine ⟨_, rfl, ?_, ?_, ?_, ?_, ?_⟩ <;>
        simp [ForkExec, setEnvs, socketOf, setenv, getenv, List.find?_cons,
              NetListener.addrNetwork, NetListener.addrString]
  | unixListener n a =>
    refine ⟨?_, fun e gw sr => rfl, fun e sr => rfl, ?_⟩
    · simp [ForkExec, setEnvs, socketOf, setenv, countWrites, hw]
    · intro e
      refine ⟨_, rfl, ?_, ?_, ?_, ?_, ?_⟩ <;>
        simp [ForkExec, setEnvs, socketOf, setenv, getenv, List.find?_cons,
              NetListener.addrNetwork, NetListener.addrString]

/-- Witness for C9's amended statement at a concrete successful spawn. -/
theorem C9_amended_envelope_writes_witness :
    countWrites (ForkExec Strategy.Single 100 (.ok "/srv/app") (.ok "/srv") (.ok 200)
        (NetListener.tcpListener "tcp" "127.0.0.1:48879") ⟨[], [], 3, []⟩).2.writes
      "GOAGAIN_FD" = 1
  ∧ countWrites (ForkExec Strategy.Single 100 (.ok "/srv/app") (.ok "/srv") (.ok 200)
        (NetListener.tcpListener "tcp" "127.0.0.1:48879") ⟨[], [], 3, []⟩).2.writes
      "GOAGAIN_PID" = 2 :=
  ⟨(C9_amended_envelope_writes Strategy.Single 100 "/srv/app" "/srv" 200
      (NetListener.tcpListener "tcp" "127.0.0.1:48879") ⟨[], [], 3, []⟩ rfl rfl).1.1,
   (C9_amended_envelope_writes Strategy.Single 100 "/srv/app" "/srv" 200
      (NetListener.tcpListener "tcp" "127.0.0.1:48879") ⟨[], [], 3, []⟩
      rfl rfl).1.2.2.2.2⟩
